import Mathlib

/-
Verification of the heroes booth controller (booth_main.py, event_bus.py,
gpio_manager.py, qr_scanner.py) via a shallow embedding.  Python values
carried in events and QR payloads are modelled by the `JValue` JSON tree;
Python floats are abstracted to a bare tag `jfloat` because no validated
code path depends on the value of a float (timestamps are only stored or
compared with isinstance).  Side effects (actuator writes, sleeps, event
publications, process control) are recorded in explicit action traces.
-/

namespace HeroesBooth

/-- JSON-like values decoded from QR codes and carried in event payloads. -/
inductive JValue where
  | jnull
  | jbool (b : Bool)
  | jint (n : Int)
  | jfloat
  | jstr (s : String)
  | jlist (elems : List JValue)
  | jdict (fields : List (String × JValue))

/-- First-match lookup in a dict's field list (Python dict keys are unique,
so an association list with first-match lookup is faithful). -/
def pyLookup : List (String × JValue) → String → Option JValue
  | [], _ => none
  | (k, v) :: rest, key => if k = key then some v else pyLookup rest key

/-- Python `d.get(key)` on a dict: the value, or None when absent. -/
def pyGetF (fs : List (String × JValue)) (k : String) : JValue :=
  (pyLookup fs k).getD JValue.jnull

/-- Python `d.get(key)` where `d` is a JValue known to be a dict at every
call site (non-dicts would raise AttributeError, which the callers never
trigger: every published payload is built as a dict). -/
def pyGet (v : JValue) (k : String) : JValue :=
  match v with
  | .jdict fs => pyGetF fs k
  | _ => .jnull

/-- Python `d.get(key, default)` with an explicit default. -/
def pyGetD (v : JValue) (k : String) (dflt : JValue) : JValue :=
  match v with
  | .jdict fs => (pyLookup fs k).getD dflt
  | _ => dflt

/-- Python truthiness of a value.  `jfloat` is abstracted as truthy: the
only truthiness test in the embedded code (`validate_payment` on
`hero_names`) is conjoined with an isinstance-list test, so the choice
made for floats cannot change any result. -/
def truthy : JValue → Bool
  | .jnull => false
  | .jbool b => b
  | .jint n => n != 0
  | .jfloat => true
  | .jstr s => s.length != 0
  | .jlist xs => !xs.isEmpty
  | .jdict fs => !fs.isEmpty

/-- Python `isinstance(v, list)`. -/
def is_list : JValue → Bool
  | .jlist _ => true
  | _ => false

/-- Python `isinstance(v, int)`; note Python bool is a subclass of int. -/
def is_int : JValue → Bool
  | .jint _ => true
  | .jbool _ => true
  | _ => false

/-- Python `isinstance(v, (int, float))`; bool again counts as int. -/
def is_number : JValue → Bool
  | .jint _ => true
  | .jbool _ => true
  | .jfloat => true
  | _ => false

/-- QRScanner.required_fields (qr_scanner.py line 23). -/
def required_fields : List String :=
  ["hero_names", "subcategory_id", "timestamp", "type"]

/-- QRScanner.validate_qr_structure (qr_scanner.py lines 164-194): all
required fields present, hero_names a list, subcategory_id an int,
timestamp a number, type the literal "heroes_selection".  A non-dict
argument yields False: for a list, the `field not in qr_data` membership
test or the later `.get` AttributeError (caught by the function's own
except) rejects it; for other types `in` raises TypeError, also caught. -/
def validate_qr_structure (qr_data : JValue) : Bool :=
  match qr_data with
  | .jdict fs =>
      (required_fields.all fun f => (pyLookup fs f).isSome) &&
      is_list (pyGetF fs "hero_names") &&
      is_int (pyGetF fs "subcategory_id") &&
      is_number (pyGetF fs "timestamp") &&
      (match pyGetF fs "type" with
        | .jstr s => s == "heroes_selection"
        | _ => false)
  | _ => false

/-- QRScanner.verify_payment (qr_scanner.py lines 196-222): the payment
check is a stub that reads payment_id and amount without acting on them
and always returns True. -/
def verify_payment (_qr_data : JValue) : Bool := true

/-! ## QR scan loop (qr_scanner.py `_scan_loop`, lines 38-119)

The loop-local state is the pair (self.scanning, last_scan_time); the
cooldown constant is `scan_cooldown = 2`.  Each camera frame computes
`current_time` once and then iterates over the decoded candidate
strings; a candidate is modelled as the outcome of `json.loads` on its
decoded text (`none` = parse/decode failure, handled by the except
branches). -/

/-- Per-frame loop state: `scanning` is QRScanner.scanning, and
`lastScanTime` the `last_scan_time` local of `_scan_loop`. -/
structure ScanState where
  scanning : Bool
  lastScanTime : Int
deriving DecidableEq

/-- Observable steps of candidate processing inside `_scan_loop`. -/
inductive ScanEv where
  | cooldownSkip
  | jsonDecodeFailed
  | verifyCalled
  | admitted (payload : JValue)
  | rejectedStructure
  | rejectedPayment

/-- scan_cooldown (qr_scanner.py line 50). -/
def scan_cooldown : Int := 2

/-- One decoded candidate of one frame (qr_scanner.py lines 69-101).
Returns the new loop state, the observable events, and whether the
`break` after `process_valid_qr` fired.  On admission process_valid_qr
sets scanning to False and publishes qr_valid with the payload; the
loop then records `last_scan_time = current_time` and breaks. -/
def scanCandidate (st : ScanState) (current_time : Int) (cand : Option JValue) :
    ScanState × List ScanEv × Bool :=
  if current_time - st.lastScanTime < scan_cooldown then
    (st, [ScanEv.cooldownSkip], false)
  else
    match cand with
    | none => (st, [ScanEv.jsonDecodeFailed], false)
    | some parsed =>
      if validate_qr_structure parsed then
        if verify_payment parsed then
          (⟨false, current_time⟩, [ScanEv.verifyCalled, ScanEv.admitted parsed], true)
        else
          (st, [ScanEv.verifyCalled, ScanEv.rejectedPayment], false)
      else
        (st, [ScanEv.rejectedStructure], false)

/-- The `for obj in decoded_objects` loop over one frame's candidates,
with the `break` on the first admission. -/
def scanFrameCands (st : ScanState) (current_time : Int) :
    List (Option JValue) → ScanState × List ScanEv
  | [] => (st, [])
  | c :: rest =>
    let r := scanCandidate st current_time c
    if r.2.2 then (r.1, r.2.1)
    else
      let r2 := scanFrameCands r.1 current_time rest
      (r2.1, r.2.1 ++ r2.2)

/-- One camera frame: arrival time (`current_time = time.time()`) and the
candidates decoded from it. -/
structure Frame where
  time : Int
  cands : List (Option JValue)

/-- The `while self.scanning` loop of `_scan_loop` over a sequence of
frames. -/
def runFrames (st : ScanState) : List Frame → ScanState × List ScanEv
  | [] => (st, [])
  | f :: rest =>
    if st.scanning then
      let r := scanFrameCands st f.time f.cands
      let r2 := runFrames r.1 rest
      (r2.1, r.2 ++ r2.2)
    else (st, [])

/-- Loop state on entry to `_scan_loop`: scanning was set True by
start_scanning and `last_scan_time = 0`. -/
def scanInit : ScanState := ⟨true, 0⟩

/-- Count of admissions (qr_valid publications) in a scan trace. -/
def countAdmissions (evs : List ScanEv) : Nat :=
  evs.countP fun e => match e with
    | ScanEv.admitted _ => true
    | _ => false

/-- Count of payment-verification invocations in a scan trace. -/
def countVerifies (evs : List ScanEv) : Nat :=
  evs.countP fun e => match e with
    | ScanEv.verifyCalled => true
    | _ => false

/-! ## Side-effect traces

Every state-changing operation of the controller, the GPIO manager and
the scanner is recorded as a list of actions, in program order. -/

/-- Observable side effects of the booth system. -/
inductive Act where
  | setDoor (opened : Bool)
  | setLight (on_state : Bool)
  | settle (seconds : Nat)
  | publish (event : String) (payload : JValue)
  | launchPlayback (data : JValue)
  | terminatePlayback
  | killPlayback
  | scannerStopped
  | scannerStarted
  | busStopped
  | resetBoothEntered

/-- Count of motion_cleared publications in a trace. -/
def countCleared (l : List Act) : Nat :=
  l.countP fun a => match a with
    | Act.publish "motion_cleared" _ => true
    | _ => false

/-- Count of light-off writes in a trace (each cleanup run performs
exactly one). -/
def countLightOff (l : List Act) : Nat :=
  l.countP fun a => match a with
    | Act.setLight false => true
    | _ => false

/-- Count of playback launches in a trace. -/
def countLaunches (l : List Act) : Nat :=
  l.countP fun a => match a with
    | Act.launchPlayback _ => true
    | _ => false

/-- Count of `kill()` calls in a trace. -/
def countKills (l : List Act) : Nat :=
  l.countP fun a => match a with
    | Act.killPlayback => true
    | _ => false

/-- Count of reset_booth invocations in a trace
(`Act.resetBoothEntered` marks entry into BoothController.reset_booth). -/
def countResets (l : List Act) : Nat :=
  l.countP fun a => match a with
    | Act.resetBoothEntered => true
    | _ => false

/-- Count of playback_finished publications in a trace. -/
def countFinishedPubs (l : List Act) : Nat :=
  l.countP fun a => match a with
    | Act.publish "playback_finished" _ => true
    | _ => false

/-- Count of playback_error publications in a trace. -/
def countErrorPubs (l : List Act) : Nat :=
  l.countP fun a => match a with
    | Act.publish "playback_error" _ => true
    | _ => false

/-! ## GPIO manager (gpio_manager.py) -/

/-- GPIOManager state fields (gpio_manager.py lines 18-22). -/
structure GPIOState where
  session_active : Bool
  door_open : Bool
  light_on : Bool
  motion_detected : Bool

/-- GPIOManager.set_door_state (lines 71-81).  In stub mode the body
never raises, so the except branch is unreachable. -/
def set_door_state (g : GPIOState) (open_state : Bool) : GPIOState × List Act :=
  ({ g with door_open := open_state }, [Act.setDoor open_state])

/-- GPIOManager.set_light_state (lines 83-93). -/
def set_light_state (g : GPIOState) (on_state : Bool) : GPIOState × List Act :=
  ({ g with light_on := on_state }, [Act.setLight on_state])

/-- Payload of the motion_cleared event built in cleanup (lines 126-129). -/
def cleared_payload : JValue :=
  .jdict [("timestamp", .jfloat),
          ("message", .jstr "Кабинка очищена и готова к новой сессии (заглушка)")]

/-- GPIOManager.cleanup (lines 116-129): light off, a 1 second settle
sleep, door closed, then publish one motion_cleared event. -/
def cleanup (g : GPIOState) : GPIOState × List Act :=
  let r1 := set_light_state g false
  let r2 := set_door_state r1.1 false
  (r2.1, r1.2 ++ [Act.settle 1] ++ r2.2 ++ [Act.publish "motion_cleared" cleared_payload])

/-- GPIOManager.check_motion_and_cleanup (lines 108-114): in stub mode it
skips the motion sensor and always runs cleanup. -/
def check_motion_and_cleanup (g : GPIOState) : GPIOState × List Act :=
  cleanup g

/-- GPIOManager.on_qr_valid (lines 35-41): unconditionally marks its own
session flag and opens door then light. -/
def gpio_on_qr_valid (g : GPIOState) (_data : JValue) : GPIOState × List Act :=
  let g0 := { g with session_active := true }
  let r1 := set_door_state g0 true
  let r2 := set_light_state r1.1 true
  (r2.1, r1.2 ++ r2.2)

/-- GPIOManager.on_playback_finished (lines 43-56): clears its session
flag, sleeps 3 seconds, then runs cleanup. -/
def gpio_on_playback_finished (g : GPIOState) (_data : JValue) : GPIOState × List Act :=
  let g0 := { g with session_active := false }
  let r := cleanup g0
  (r.1, Act.settle 3 :: r.2)

/-- GPIOManager.on_playback_error (lines 58-63): clears its session flag
and runs cleanup immediately. -/
def gpio_on_playback_error (g : GPIOState) (_data : JValue) : GPIOState × List Act :=
  let g0 := { g with session_active := false }
  cleanup g0

/-- GPIOManager.on_motion_cleared (lines 65-69): a logged no-op. -/
def gpio_on_motion_cleared (g : GPIOState) (_data : JValue) : GPIOState × List Act :=
  (g, [])

/-! ## Booth controller (booth_main.py)

`SysState` combines the BoothController fields with the scanner's
`scanning` flag and the GPIO manager's state.  The playback process
handle (`self.playback_process`) is modelled as `none` when it is None,
`some true` while `poll()` returns None (process alive) and `some false`
once it has exited. -/

/-- BoothController state plus the scanner flag and GPIO state. -/
structure SysState where
  session_active : Bool
  current_session : Option JValue
  playback_process : Option Bool
  scanning : Bool
  gpio : GPIOState

/-- QRScanner.stop_scanning (qr_scanner.py lines 238-251): returns at
once when not scanning, otherwise clears the flag, joins the thread and
releases the camera. -/
def scanner_stop (st : SysState) : SysState × List Act :=
  if st.scanning then ({ st with scanning := false }, [Act.scannerStopped])
  else (st, [])

/-- BoothController.start_qr_scanning (booth_main.py lines 244-254)
together with QRScanner.start_scanning: spawns the scan thread only when
the scanner is idle, which sets the scanning flag. -/
def start_qr_scanning (st : SysState) : SysState × List Act :=
  if st.scanning then (st, [])
  else ({ st with scanning := true }, [Act.scannerStarted])

/-- BoothController.validate_payment (booth_main.py lines 71-87): True
iff `payment_data.get('hero_names')` is truthy and a list.  The body
cannot raise on a dict argument, so the except branch is unreachable. -/
def validate_payment (payment_data : JValue) : Bool :=
  truthy (pyGet payment_data "hero_names") && is_list (pyGet payment_data "hero_names")

/-- The playback_data argument built by start_playback_module
(booth_main.py lines 113-118). -/
def playback_data_of (session_data : JValue) : JValue :=
  .jdict [("hero_names", pyGetD session_data "hero_names" (.jlist [])),
          ("subcategory_id", pyGetD session_data "subcategory_id" (.jint 13)),
          ("total_videos",
            .jint (match pyGetD session_data "hero_names" (.jlist []) with
              | .jlist xs => (xs.length : Int)
              | _ => 0)),
          ("timestamp", .jfloat)]

/-- BoothController.start_playback_module (booth_main.py lines 107-151):
launches modules/playback_module.py with the serialized playback data as
one argument and stores the live process handle.  The except branch
(publishing playback_error when Popen itself fails) is an environmental
failure outside this model: the launch is modelled as succeeding. -/
def start_playback_module (st : SysState) (session_data : JValue) : SysState × List Act :=
  ({ st with playback_process := some true },
   [Act.launchPlayback (playback_data_of session_data)])

/-- BoothController.start_session (booth_main.py lines 89-105): returns
at once when a session is already active; otherwise records the session,
opens the door, turns on the light and launches playback. -/
def start_session (st : SysState) (session_data : JValue) : SysState × List Act :=
  if st.session_active then (st, [])
  else
    let st1 := { st with session_active := true, current_session := some session_data }
    let r1 := set_door_state st1.gpio true
    let r2 := set_light_state r1.1 true
    let st2 := { st1 with gpio := r2.1 }
    let r3 := start_playback_module st2 session_data
    (r3.1, r1.2 ++ r2.2 ++ r3.2)

/-- BoothController.on_qr_valid (booth_main.py lines 52-69): stop the
scanner, extract `data.get('heroes', {})`, then either start the session
or resume scanning when validate_payment rejects. -/
def booth_on_qr_valid (st : SysState) (data : JValue) : SysState × List Act :=
  let r0 := scanner_stop st
  let qr_data := pyGetD data "heroes" (.jdict [])
  if validate_payment qr_data then
    let r1 := start_session r0.1 qr_data
    (r1.1, r0.2 ++ r1.2)
  else
    let r1 := start_qr_scanning r0.1
    (r1.1, r0.2 ++ r1.2)

/-- BoothController.on_playback_finished (booth_main.py lines 202-207):
delegates to GPIOManager.check_motion_and_cleanup. -/
def booth_on_playback_finished (st : SysState) (_data : JValue) : SysState × List Act :=
  let r := check_motion_and_cleanup st.gpio
  ({ st with gpio := r.1 }, r.2)

/-- BoothController.on_playback_error (booth_main.py lines 209-214):
also delegates to check_motion_and_cleanup. -/
def booth_on_playback_error (st : SysState) (_data : JValue) : SysState × List Act :=
  let r := check_motion_and_cleanup st.gpio
  ({ st with gpio := r.1 }, r.2)

/-- BoothController.reset_booth (booth_main.py lines 221-242): terminate
a still-running playback process (the wait/kill escalation on a stubborn
child is abstracted into the terminate step), clear the session fields,
sleep 1 second and restart scanning.  `Act.resetBoothEntered` marks the
invocation itself. -/
def reset_booth (st : SysState) : SysState × List Act :=
  let a1 : List Act :=
    if st.playback_process = some true then [Act.terminatePlayback] else []
  let st1 := { st with playback_process := none,
                       session_active := false,
                       current_session := none }
  let r2 := start_qr_scanning st1
  (r2.1, Act.resetBoothEntered :: (a1 ++ [Act.settle 1] ++ r2.2))

/-- BoothController.on_motion_cleared (booth_main.py lines 216-219). -/
def booth_on_motion_cleared (st : SysState) (_data : JValue) : SysState × List Act :=
  reset_booth st

/-! ## Event dispatch

BoothController.__init__ first constructs GPIOManager (which subscribes
its four handlers) and then subscribes the controller's own four
handlers, so for every event type the GPIO handler runs before the
controller handler. -/

/-- Full dispatch of one qr_valid event: gpio_on_qr_valid then
booth_on_qr_valid. -/
def dispatch_qr_valid (st : SysState) (data : JValue) : SysState × List Act :=
  let r1 := gpio_on_qr_valid st.gpio data
  let st1 := { st with gpio := r1.1 }
  let r2 := booth_on_qr_valid st1 data
  (r2.1, r1.2 ++ r2.2)

/-- Full dispatch of one playback_finished event. -/
def dispatch_playback_finished (st : SysState) (data : JValue) : SysState × List Act :=
  let r1 := gpio_on_playback_finished st.gpio data
  let st1 := { st with gpio := r1.1 }
  let r2 := booth_on_playback_finished st1 data
  (r2.1, r1.2 ++ r2.2)

/-- Full dispatch of one playback_error event. -/
def dispatch_playback_error (st : SysState) (data : JValue) : SysState × List Act :=
  let r1 := gpio_on_playback_error st.gpio data
  let st1 := { st with gpio := r1.1 }
  let r2 := booth_on_playback_error st1 data
  (r2.1, r1.2 ++ r2.2)

/-- Full dispatch of one motion_cleared event. -/
def dispatch_motion_cleared (st : SysState) (data : JValue) : SysState × List Act :=
  let r1 := gpio_on_motion_cleared st.gpio data
  let st1 := { st with gpio := r1.1 }
  let r2 := booth_on_motion_cleared st1 data
  (r2.1, r1.2 ++ r2.2)

/-! ## Playback monitor (booth_main.py `monitor_playback_process`) -/

/-- Behaviour of the launched playback process as observed by the
monitor thread: it either eventually exits with a code, or never exits. -/
inductive ProcOutcome where
  | exits (code : Int)
  | hangs

/-- The error string built at booth_main.py line 191. -/
def exit_code_msg (code : Int) : String :=
  "Process exit code: " ++ toString code

/-- Payload of playback_finished (booth_main.py lines 184-187). -/
def finished_payload (session : Option JValue) : JValue :=
  .jdict [("timestamp", .jfloat),
          ("session", session.getD .jnull)]

/-- Payload of playback_error on a nonzero exit (lines 190-193). -/
def exit_error_payload (code : Int) : JValue :=
  .jdict [("error", .jstr (exit_code_msg code)), ("timestamp", .jfloat)]

/-- The events the monitor publishes after `wait()` returns a code
(booth_main.py lines 182-193). -/
def monitor_exit_acts (session : Option JValue) (code : Int) : List Act :=
  if code = 0 then [Act.publish "playback_finished" (finished_payload session)]
  else [Act.publish "playback_error" (exit_error_payload code)]

/-- The whole monitor thread (booth_main.py lines 175-200).  The body is
`return_code = self.playback_process.wait()` with NO timeout argument:
on a process that never exits the thread blocks forever, performing no
kill and publishing nothing, which is the empty trace. -/
def monitor_playback_process (session : Option JValue) : ProcOutcome → List Act
  | ProcOutcome.exits code => monitor_exit_acts session code
  | ProcOutcome.hangs => []

/-! ## Shutdown (booth_main.py `shutdown`, lines 309-319)

Order in the source: terminate a live playback process, stop the event
bus, stop the scanner, run GPIO cleanup.  The terminated process handle
is not observed again before exit, so the playback_process field is left
as it was. -/

/-- BoothController.shutdown. -/
def shutdown (st : SysState) : SysState × List Act :=
  let a1 : List Act :=
    if st.playback_process = some true then [Act.terminatePlayback] else []
  let r2 := scanner_stop st
  let r3 := cleanup r2.1.gpio
  ({ r2.1 with gpio := r3.1 }, a1 ++ [Act.busStopped] ++ r2.2 ++ r3.2)

/-- Shutdown-step tags used to compare the order of the shutdown
sequence against the specified order. -/
inductive STag where
  | termPB
  | killPB
  | gateStop
  | busStop
  | cleanupDone
deriving DecidableEq

/-- Projection of a trace onto shutdown-step tags; the motion_cleared
publication marks the completion of one cleanup run. -/
def stag_of : Act → Option STag
  | Act.terminatePlayback => some STag.termPB
  | Act.killPlayback => some STag.killPB
  | Act.scannerStopped => some STag.gateStop
  | Act.busStopped => some STag.busStop
  | Act.publish "motion_cleared" _ => some STag.cleanupDone
  | _ => none

/-- Shutdown-step tag sequence of a trace. -/
def stags (l : List Act) : List STag := l.filterMap stag_of

/-! ## Event bus (event_bus.py)

The bus is modelled generically over the handler state type: subscribers
are an association list from event type to the handler list in
registration order, and a handler either returns a new state or raises
(Except.error), which `start` catches and logs. -/

/-- A subscribed handler: an identity and its effect, which may raise. -/
structure Handler (σ : Type) where
  id : Nat
  run : JValue → σ → Except String σ

/-- EventBus.subscribe (event_bus.py lines 17-22): create the list for a
new type, else append in call order. -/
def subscribe {σ : Type} : List (String × List (Handler σ)) → String → Handler σ →
    List (String × List (Handler σ))
  | [], ty, h => [(ty, [h])]
  | (t, hs) :: rest, ty, h =>
    if t = ty then (t, hs ++ [h]) :: rest
    else (t, hs) :: subscribe rest ty h

/-- The handler list registered for a type (empty when the type is
unknown, in which case the consumer loop skips the event). -/
def handlers_for {σ : Type} : List (String × List (Handler σ)) → String → List (Handler σ)
  | [], _ => []
  | (t, hs) :: rest, ty => if t = ty then hs else handlers_for rest ty

/-- The `for callback in self._subscribers[event_type]` loop of
EventBus.start (lines 42-46): each callback runs inside try/except, an
exception leaves the state as the handler left it (modelled atomically:
unchanged) and the loop continues with the next handler.  Returns the
final state and the invocation log of handler ids. -/
def run_handlers {σ : Type} : List (Handler σ) → JValue → σ → σ × List Nat
  | [], _, s => (s, [])
  | h :: rest, d, s =>
    let s1 := match h.run d s with
      | Except.ok s2 => s2
      | Except.error _ => s
    let r := run_handlers rest d s1
    (r.1, h.id :: r.2)

/-- The consumer loop of EventBus.start (lines 35-48) draining a queue
of published events in FIFO order. -/
def event_loop {σ : Type} (subs : List (String × List (Handler σ))) :
    List (String × JValue) → σ → σ × List Nat
  | [], s => (s, [])
  | e :: rest, s =>
    let r1 := run_handlers (handlers_for subs e.1) e.2 s
    let r2 := event_loop subs rest r1.1
    (r2.1, r1.2 ++ r2.2)

/-! ## Spec-side helper and concrete inputs -/

/-- The condition the orchestrator spec attaches to session start: the
payload's hero_names is a non-empty list. -/
def hero_names_nonempty (qr : JValue) : Bool :=
  match pyGet qr "hero_names" with
  | .jlist (_ :: _) => true
  | _ => false

/-- A GPIO state with door closed, light off. -/
def gpioIdle : GPIOState := ⟨false, false, false, false⟩

/-- A GPIO state as it is during an active session. -/
def gpioActive : GPIOState := ⟨true, true, true, false⟩

/-- System state while waiting for a scan. -/
def stIdleEx : SysState := ⟨false, none, none, true, gpioIdle⟩

/-- System state during an active session. -/
def stActiveEx : SysState :=
  ⟨true, some (.jdict [("hero_names", .jlist [.jstr "Alice"])]), some true, false, gpioActive⟩

/-- System state used for the shutdown trace: live playback, scanner
running. -/
def stShutEx : SysState :=
  ⟨true, some (.jdict [("hero_names", .jlist [.jstr "Alice"])]), some true, true, gpioActive⟩

/-- A structurally valid QR payload that carries NO payment_id and NO
amount fields, and whose hero_names elements are not strings. -/
def qrNoPayment : JValue :=
  .jdict [("hero_names", .jlist [.jint 5]),
          ("subcategory_id", .jint 13),
          ("timestamp", .jint 1700000000),
          ("type", .jstr "heroes_selection")]

/-- A fully valid QR payload including payment fields. -/
def qrSample : JValue :=
  .jdict [("hero_names", .jlist [.jstr "Alice"]),
          ("subcategory_id", .jint 13),
          ("timestamp", .jint 1700000000),
          ("type", .jstr "heroes_selection"),
          ("payment_id", .jstr "pay-1"),
          ("amount", .jint 500)]

/-- Frames in which the same valid QR payload is decoded repeatedly. -/
def framesEx : List Frame :=
  [⟨5, [some qrSample, some qrSample]⟩, ⟨6, [some qrSample]⟩]

/-- A qr_valid event payload whose heroes record has an empty hero
list. -/
def dEmptyHeroes : JValue :=
  .jdict [("heroes", .jdict [("hero_names", .jlist []),
                             ("subcategory_id", .jint 13)]),
          ("timestamp", .jfloat),
          ("message", .jstr "QR code validated and payment verified")]

/-- A qr_valid event payload whose heroes record has one hero. -/
def dGoodHeroes : JValue :=
  .jdict [("heroes", .jdict [("hero_names", .jlist [.jstr "Alice"]),
                             ("subcategory_id", .jint 13)]),
          ("timestamp", .jfloat),
          ("message", .jstr "QR code validated and payment verified")]

/-- A bus handler that always raises. -/
def failing_handler : Handler Nat :=
  ⟨7, fun _ _ => Except.error "boom"⟩

/-- A bus handler that increments its state. -/
def counting_handler : Handler Nat :=
  ⟨8, fun _ n => Except.ok (n + 1)⟩

/-! ## Helper lemmas -/

/-- The invocation log of one dispatch is exactly the handler ids in
list order, whatever the handlers do or raise. -/
theorem run_handlers_log {σ : Type} (hs : List (Handler σ)) (d : JValue) :
    ∀ s : σ, (run_handlers hs d s).2 = hs.map Handler.id := by
  induction hs with
  | nil => intro s; rfl
  | cons h rest ih =>
    intro s
    cases hr : h.run d s with
    | ok s2 => simp [run_handlers, hr, ih]
    | error e => simp [run_handlers, hr, ih]

/-- subscribe appends the new handler at the end of the registration
list for its type. -/
theorem handlers_for_subscribe {σ : Type} (subs : List (String × List (Handler σ)))
    (ty : String) (h : Handler σ) :
    handlers_for (subscribe subs ty h) ty = handlers_for subs ty ++ [h] := by
  induction subs with
  | nil => simp [subscribe, handlers_for]
  | cons p rest ih =>
    obtain ⟨t, hs⟩ := p
    by_cases ht : t = ty
    · simp [subscribe, handlers_for, ht]
    · simp [subscribe, handlers_for, ht, ih]

/-- BoothController.validate_payment accepts exactly the payloads whose
hero_names is a non-empty list. -/
theorem validate_payment_eq_nonempty (qr : JValue) :
    validate_payment qr = hero_names_nonempty qr := by
  unfold validate_payment hero_names_nonempty
  cases hv : pyGet qr "hero_names" with
  | jlist xs => cases xs <;> simp [truthy, is_list]
  | jnull => simp [truthy, is_list]
  | jbool b => simp [truthy, is_list]
  | jint n => simp [truthy, is_list]
  | jfloat => simp [truthy, is_list]
  | jstr s => simp [truthy, is_list]
  | jdict fs => simp [truthy, is_list]

/-- Case facts about one candidate: on break the loop state has
scanning cleared and exactly one admission was published; without break
the loop state is unchanged and nothing was admitted. -/
theorem scanCandidate_cases (st : ScanState) (t : Int) (c : Option JValue) :
    ((scanCandidate st t c).2.2 = true →
      (scanCandidate st t c).1.scanning = false ∧
      countAdmissions (scanCandidate st t c).2.1 = 1) ∧
    ((scanCandidate st t c).2.2 = false →
      (scanCandidate st t c).1 = st ∧
      countAdmissions (scanCandidate st t c).2.1 = 0) := by
  unfold scanCandidate
  split
  · simp [countAdmissions]
  · cases c with
    | none => simp [countAdmissions]
    | some p =>
      by_cases hv : validate_qr_structure p
      · simp [hv, verify_payment, countAdmissions]
      · simp [hv, countAdmissions]

/-- countAdmissions distributes over trace concatenation. -/
theorem countAdmissions_append (a b : List ScanEv) :
    countAdmissions (a ++ b) = countAdmissions a + countAdmissions b := by
  simp [countAdmissions, List.countP_append]

/-- Per-frame facts: at most one admission per frame; no admission
leaves the loop state unchanged, an admission clears scanning. -/
theorem scanFrameCands_cases (t : Int) :
    ∀ (cs : List (Option JValue)) (st : ScanState),
    countAdmissions (scanFrameCands st t cs).2 ≤ 1 ∧
    (countAdmissions (scanFrameCands st t cs).2 = 0 → (scanFrameCands st t cs).1 = st) ∧
    (countAdmissions (scanFrameCands st t cs).2 = 1 →
      (scanFrameCands st t cs).1.scanning = false) := by
  intro cs
  induction cs with
  | nil => intro st; simp [scanFrameCands, countAdmissions]
  | cons c rest ih =>
    intro st
    have hc := scanCandidate_cases st t c
    unfold scanFrameCands
    by_cases hb : (scanCandidate st t c).2.2 = true
    · obtain ⟨hscan, hone⟩ := hc.1 hb
      simp [hb, hscan, hone]
    · rw [Bool.not_eq_true] at hb
      obtain ⟨hst, hzero⟩ := hc.2 hb
      have hrest := ih (scanCandidate st t c).1
      simp only [hb, if_neg Bool.false_ne_true, countAdmissions_append, hzero,
        Nat.zero_add]
      refine ⟨hrest.1, ?_, hrest.2.2⟩
      intro hz
      rw [hrest.2.1 hz, hst]

/-- A scanning run (sequence of frames) admits at most once: the first
admission clears scanning, which halts the while loop. -/
theorem runFrames_admissions (fs : List Frame) :
    ∀ st : ScanState, countAdmissions (runFrames st fs).2 ≤ 1 := by
  induction fs with
  | nil => intro st; simp [runFrames, countAdmissions]
  | cons f rest ih =>
    intro st
    unfold runFrames
    by_cases hs : st.scanning = true
    · have hf := scanFrameCands_cases f.time f.cands st
      simp only [hs, if_pos, countAdmissions_append]
      rcases Nat.lt_or_ge (countAdmissions (scanFrameCands st f.time f.cands).2) 1 with h0 | h1
      · have hz : countAdmissions (scanFrameCands st f.time f.cands).2 = 0 := by omega
        have := ih (scanFrameCands st f.time f.cands).1
        omega
      · have hone : countAdmissions (scanFrameCands st f.time f.cands).2 = 1 := by omega
        have hstop := hf.2.2 hone
        have hhalt : runFrames (scanFrameCands st f.time f.cands).1 rest =
            ((scanFrameCands st f.time f.cands).1, []) := by
          cases rest with
          | nil => rfl
          | cons g more => simp [runFrames, hstop]
        rw [hhalt, hone]
        simp [countAdmissions]
    · rw [Bool.not_eq_true] at hs
      simp [hs, countAdmissions]

/-- The type-literal check of validate_qr_structure holds exactly when
the type field is the string "heroes_selection". -/
theorem type_match_eq (fs : List (String × JValue)) :
    (match pyGetF fs "type" with
      | JValue.jstr s => s == "heroes_selection"
      | _ => false) = true ↔
    pyGetF fs "type" = JValue.jstr "heroes_selection" := by
  cases h : pyGetF fs "type" <;> simp

/-! ## Claim theorems -/

/-- C3: from any prior GPIO state, cleanup executes light-off, a one
second settle delay, then door-close, leaves door closed and light off,
and publishes exactly one motion_cleared event; a second invocation does
exactly the same again. -/
theorem cleanup_idempotent_unconditional (g : GPIOState) :
    (cleanup g).1.door_open = false ∧
    (cleanup g).1.light_on = false ∧
    (cleanup g).2 = [Act.setLight false, Act.settle 1, Act.setDoor false,
                     Act.publish "motion_cleared" cleared_payload] ∧
    countCleared (cleanup g).2 = 1 ∧
    (cleanup (cleanup g).1).1.door_open = false ∧
    (cleanup (cleanup g).1).1.light_on = false ∧
    (cleanup (cleanup g).1).2 = (cleanup g).2 ∧
    countCleared (cleanup (cleanup g).1).2 = 1 :=
  ⟨rfl, rfl, rfl, rfl, rfl, rfl, rfl, rfl⟩

/-- C10: one playback_finished or playback_error delivery runs the
cleanup sequence twice (once in GPIOManager's own subscribed handler,
once via BoothController's handler calling check_motion_and_cleanup),
publishing two motion_cleared events; each motion_cleared delivery runs
reset_booth exactly once. -/
theorem double_cleanup_per_termination (st : SysState) (d : JValue) :
    countCleared (dispatch_playback_finished st d).2 = 2 ∧
    countLightOff (dispatch_playback_finished st d).2 = 2 ∧
    countCleared (dispatch_playback_error st d).2 = 2 ∧
    countLightOff (dispatch_playback_error st d).2 = 2 ∧
    countResets (dispatch_motion_cleared st d).2 = 1 := by
  refine ⟨rfl, rfl, rfl, rfl, ?_⟩
  unfold dispatch_motion_cleared gpio_on_motion_cleared booth_on_motion_cleared
    reset_booth start_qr_scanning
  by_cases hp : st.playback_process = some true <;>
    by_cases hs : st.scanning = true <;>
      simp [hp, hs, countResets]

/-- C2 counterexample: with a playback process that never exits, the
monitor thread blocks on the timeout-free wait() forever; it performs no
kill, publishes no playback-error and produces no cleanup. -/
theorem monitor_timeout_refuted :
    monitor_playback_process none ProcOutcome.hangs = [] ∧
    countKills (monitor_playback_process none ProcOutcome.hangs) = 0 ∧
    countErrorPubs (monitor_playback_process none ProcOutcome.hangs) = 0 ∧
    countCleared (monitor_playback_process none ProcOutcome.hangs) = 0 :=
  ⟨rfl, rfl, rfl, rfl⟩

/-- C2 amended: the exit wait of monitor_playback_process is unbounded
(wait() carries no timeout): a hanging process is never killed and
yields no event at all; the monitor never kills on any outcome and
publishes at most one event, and it is the later dispatch of a
playback_error event that performs actuator cleanup. -/
theorem monitor_wait_unbounded (session : Option JValue) (o : ProcOutcome)
    (st : SysState) (d : JValue) :
    monitor_playback_process session ProcOutcome.hangs = [] ∧
    countKills (monitor_playback_process session o) = 0 ∧
    (monitor_playback_process session o).length ≤ 1 ∧
    0 < countCleared (dispatch_playback_error st d).2 := by
  refine ⟨rfl, ?_, ?_, ?_⟩
  · cases o with
    | exits code =>
      show countKills (monitor_exit_acts session code) = 0
      unfold monitor_exit_acts
      split <;> rfl
    | hangs => rfl
  · cases o with
    | exits code =>
      show (monitor_exit_acts session code).length ≤ 1
      unfold monitor_exit_acts
      split <;> simp
    | hangs =>
      show (([] : List Act)).length ≤ 1
      simp
  · have h2 : countCleared (dispatch_playback_error st d).2 = 2 := rfl
    omega

/-- C4: for every observed exit, the monitor publishes exactly one
event: playback_finished carrying the current session reference when the
exit code is 0, and playback_error carrying the exit code in its error
string for any nonzero code. -/
theorem monitor_exit_event (session : Option JValue) (code : Int) :
    (monitor_playback_process session (ProcOutcome.exits code)).length = 1 ∧
    (code = 0 → monitor_playback_process session (ProcOutcome.exits code) =
        [Act.publish "playback_finished" (finished_payload session)]) ∧
    (code ≠ 0 → monitor_playback_process session (ProcOutcome.exits code) =
        [Act.publish "playback_error" (exit_error_payload code)]) := by
  refine ⟨?_, ?_, ?_⟩
  · show (monitor_exit_acts session code).length = 1
    unfold monitor_exit_acts
    split <;> rfl
  · intro h
    show monitor_exit_acts session code = _
    simp [monitor_exit_acts, h]
  · intro h
    show monitor_exit_acts session code = _
    simp [monitor_exit_acts, h]

/-- C4 witness: the two exit branches at codes 0 and 1 for a concrete
session. -/
theorem monitor_exit_event_witness :
    monitor_playback_process (some qrSample) (ProcOutcome.exits 0) =
      [Act.publish "playback_finished" (finished_payload (some qrSample))] ∧
    monitor_playback_process (some qrSample) (ProcOutcome.exits 1) =
      [Act.publish "playback_error" (exit_error_payload 1)] :=
  ⟨(monitor_exit_event (some qrSample) 0).2.1 rfl,
   (monitor_exit_event (some qrSample) 1).2.2 (by decide)⟩

/-- C5: for every queue of published events, each handler subscribed to
the event's type is invoked exactly once per publish, in registration
order (subscribe appends at the end), and a handler that raises is
caught without preventing its later siblings or stopping the consumer
loop. -/
theorem event_bus_exactly_once {σ : Type} (subs : List (String × List (Handler σ)))
    (events : List (String × JValue)) (s : σ) :
    ((event_loop subs events s).2 =
      (events.map fun e => (handlers_for subs e.1).map Handler.id).flatten) ∧
    (∀ (ty : String) (h : Handler σ),
      handlers_for (subscribe subs ty h) ty = handlers_for subs ty ++ [h]) ∧
    (∀ (h : Handler σ) (rest : List (Handler σ)) (d : JValue) (s0 : σ),
      (∃ msg, h.run d s0 = Except.error msg) →
      run_handlers (h :: rest) d s0 =
        ((run_handlers rest d s0).1, h.id :: (run_handlers rest d s0).2)) := by
  refine ⟨?_, ?_, ?_⟩
  · induction events generalizing s with
    | nil => rfl
    | cons e rest ih =>
      simp [event_loop, run_handlers_log, ih]
  · intro ty h
    exact handlers_for_subscribe subs ty h
  · rintro h rest d s0 ⟨msg, hmsg⟩
    simp [run_handlers, hmsg]

/-- C5 witness: a concrete raising handler is logged first and its
sibling still runs and updates the state. -/
theorem event_bus_exactly_once_witness :
    run_handlers [failing_handler, counting_handler] JValue.jnull 0 = (1, [7, 8]) :=
  ((event_bus_exactly_once (σ := Nat) [] [] 0).2.2 failing_handler [counting_handler]
    JValue.jnull 0 ⟨"boom", rfl⟩).trans rfl

/-- C7: within one scanning run at most one admission event is
published (the gate halts its frame loop on the first accepted
candidate), and any candidate arriving within the cooldown window of
the last accepted admission is skipped without invoking payment
verification and with no state change. -/
theorem scanner_admission_once (fs : List Frame) :
    countAdmissions (runFrames scanInit fs).2 ≤ 1 ∧
    (∀ (st : ScanState) (t : Int) (c : Option JValue),
      t - st.lastScanTime < scan_cooldown →
      scanCandidate st t c = (st, [ScanEv.cooldownSkip], false)) := by
  refine ⟨runFrames_admissions fs scanInit, ?_⟩
  intro st t c h
  unfold scanCandidate
  rw [if_pos h]

/-- C7 witness: frames repeating the same paid QR admit at most once,
and a candidate arriving 1 second after an admission (cooldown 2) is
skipped without verification. -/
theorem scanner_admission_once_witness :
    countAdmissions (runFrames scanInit framesEx).2 ≤ 1 ∧
    scanCandidate ⟨true, 4⟩ 5 (some qrSample) =
      (⟨true, 4⟩, [ScanEv.cooldownSkip], false) :=
  ⟨(scanner_admission_once framesEx).1,
   (scanner_admission_once framesEx).2 ⟨true, 4⟩ 5 (some qrSample) (by decide)⟩

/-- C1: a qr_valid admission dispatched while a session is active (door
open, light on) creates no second session: the session reference, the
playback handle, the door and the light are unchanged, no playback is
launched, and nothing is queued; the only session-creating path is
start_session, whose session_active guard discards the admission. -/
theorem single_session_invariant (st : SysState) (d : JValue)
    (hA : st.session_active = true) (hD : st.gpio.door_open = true)
    (hL : st.gpio.light_on = true) :
    (dispatch_qr_valid st d).1.session_active = true ∧
    (dispatch_qr_valid st d).1.current_session = st.current_session ∧
    (dispatch_qr_valid st d).1.playback_process = st.playback_process ∧
    (dispatch_qr_valid st d).1.gpio.door_open = true ∧
    (dispatch_qr_valid st d).1.gpio.light_on = true ∧
    countLaunches (dispatch_qr_valid st d).2 = 0 := by
  unfold dispatch_qr_valid gpio_on_qr_valid booth_on_qr_valid scanner_stop
    start_session start_qr_scanning set_door_state set_light_state
  by_cases hv : validate_payment (pyGetD d "heroes" (.jdict [])) = true <;>
    by_cases hs : st.scanning = true <;>
      simp [hv, hs, hA, hD, hL, countLaunches, start_playback_module]

/-- C1 witness: the admission dispatched against a concrete
active-session state. -/
theorem single_session_invariant_witness :
    (dispatch_qr_valid stActiveEx dGoodHeroes).1.session_active = true ∧
    (dispatch_qr_valid stActiveEx dGoodHeroes).1.current_session = stActiveEx.current_session ∧
    (dispatch_qr_valid stActiveEx dGoodHeroes).1.playback_process = stActiveEx.playback_process ∧
    (dispatch_qr_valid stActiveEx dGoodHeroes).1.gpio.door_open = true ∧
    (dispatch_qr_valid stActiveEx dGoodHeroes).1.gpio.light_on = true ∧
    countLaunches (dispatch_qr_valid stActiveEx dGoodHeroes).2 = 0 :=
  single_session_invariant stActiveEx dGoodHeroes rfl rfl rfl

/-- C6 counterexample: qrNoPayment carries no payment_id field and no
amount field and its hero_names elements are integers, not strings, yet
validate_qr_structure accepts it; the claim says such payloads are
rejected. -/
theorem validate_qr_structure_refuted :
    validate_qr_structure qrNoPayment = true ∧
    pyGet qrNoPayment "payment_id" = JValue.jnull ∧
    pyGet qrNoPayment "amount" = JValue.jnull ∧
    pyGet qrNoPayment "hero_names" = JValue.jlist [JValue.jint 5] :=
  ⟨rfl, rfl, rfl, rfl⟩

/-- C6 amended: validation accepts exactly the dict payloads in which
hero_names, subcategory_id, timestamp and type are all present,
hero_names is a list (element types unchecked), subcategory_id is an
int (a Python bool also passes), timestamp is an int, float or bool,
and type equals "heroes_selection"; payment_id and amount are not
required. -/
theorem validate_qr_structure_amended (q : JValue) :
    validate_qr_structure q = true ↔
    ∃ fs, q = JValue.jdict fs ∧
      (∀ f ∈ required_fields, (pyLookup fs f).isSome = true) ∧
      is_list (pyGetF fs "hero_names") = true ∧
      is_int (pyGetF fs "subcategory_id") = true ∧
      is_number (pyGetF fs "timestamp") = true ∧
      pyGetF fs "type" = JValue.jstr "heroes_selection" := by
  cases q
  case jdict fs =>
    unfold validate_qr_structure
    simp only [Bool.and_eq_true, List.all_eq_true, type_match_eq]
    constructor
    · rintro ⟨⟨⟨⟨hall, hl⟩, hi⟩, hn⟩, ht⟩
      exact ⟨fs, rfl, hall, hl, hi, hn, ht⟩
    · rintro ⟨fs2, heq, hall, hl, hi, hn, ht⟩
      injection heq with heq2
      subst heq2
      exact ⟨⟨⟨⟨hall, hl⟩, hi⟩, hn⟩, ht⟩
  all_goals simp [validate_qr_structure]

/-- C6 witness: the amended acceptance conditions instantiated at the
concrete payload that has no payment fields. -/
theorem validate_qr_structure_amended_witness :
    validate_qr_structure qrNoPayment = true :=
  (validate_qr_structure_amended qrNoPayment).mpr
    ⟨[("hero_names", JValue.jlist [JValue.jint 5]),
      ("subcategory_id", JValue.jint 13),
      ("timestamp", JValue.jint 1700000000),
      ("type", JValue.jstr "heroes_selection")],
     rfl, by decide, rfl, rfl, rfl, rfl⟩

/-- C8 counterexample: a qr_valid dispatch with no active session and an
empty hero list starts no session and launches no playback, but the
actuator state is NOT unchanged: the GPIO manager's own qr_valid
handler has already opened the door and switched on the light. -/
theorem qr_reject_actuators_refuted :
    stIdleEx.gpio.door_open = false ∧
    stIdleEx.gpio.light_on = false ∧
    (dispatch_qr_valid stIdleEx dEmptyHeroes).1.session_active = false ∧
    countLaunches (dispatch_qr_valid stIdleEx dEmptyHeroes).2 = 0 ∧
    (dispatch_qr_valid stIdleEx dEmptyHeroes).1.gpio.door_open = true ∧
    (dispatch_qr_valid stIdleEx dEmptyHeroes).1.gpio.light_on = true :=
  ⟨rfl, rfl, rfl, rfl, rfl, rfl⟩

/-- C8 amended: on a qr_valid dispatch with no active session the
orchestrator starts a session (records it, launches playback) iff the
heroes payload's hero_names is a non-empty list; on rejection no
session is started, no playback is launched and scanning resumes — but
the actuator state is not unchanged: the GPIO manager's unconditional
qr_valid handler has already opened the door and turned on the light in
both cases. -/
theorem qr_valid_no_session (st : SysState) (d : JValue)
    (hA : st.session_active = false) :
    (validate_payment (pyGetD d "heroes" (.jdict [])) =
      hero_names_nonempty (pyGetD d "heroes" (.jdict []))) ∧
    (validate_payment (pyGetD d "heroes" (.jdict [])) = true →
      (dispatch_qr_valid st d).1.session_active = true ∧
      (dispatch_qr_valid st d).1.current_session = some (pyGetD d "heroes" (.jdict [])) ∧
      (dispatch_qr_valid st d).1.playback_process = some true ∧
      countLaunches (dispatch_qr_valid st d).2 = 1 ∧
      (dispatch_qr_valid st d).1.gpio.door_open = true ∧
      (dispatch_qr_valid st d).1.gpio.light_on = true) ∧
    (validate_payment (pyGetD d "heroes" (.jdict [])) = false →
      (dispatch_qr_valid st d).1.session_active = false ∧
      (dispatch_qr_valid st d).1.current_session = st.current_session ∧
      (dispatch_qr_valid st d).1.playback_process = st.playback_process ∧
      countLaunches (dispatch_qr_valid st d).2 = 0 ∧
      (dispatch_qr_valid st d).1.scanning = true ∧
      (dispatch_qr_valid st d).1.gpio.door_open = true ∧
      (dispatch_qr_valid st d).1.gpio.light_on = true) := by
  refine ⟨validate_payment_eq_nonempty _, ?_, ?_⟩
  · intro hv
    unfold dispatch_qr_valid gpio_on_qr_valid booth_on_qr_valid scanner_stop
      start_session start_qr_scanning set_door_state set_light_state
      start_playback_module
    by_cases hs : st.scanning = true <;>
      simp [hv, hs, hA, countLaunches]
  · intro hv
    unfold dispatch_qr_valid gpio_on_qr_valid booth_on_qr_valid scanner_stop
      start_session start_qr_scanning set_door_state set_light_state
      start_playback_module
    by_cases hs : st.scanning = true <;>
      simp [hv, hs, hA, countLaunches]

/-- C8 witness: the session-starting branch at a concrete idle state and
a one-hero payload. -/
theorem qr_valid_no_session_witness :
    stIdleEx.session_active = false ∧
    (dispatch_qr_valid stIdleEx dGoodHeroes).1.session_active = true ∧
    countLaunches (dispatch_qr_valid stIdleEx dGoodHeroes).2 = 1 :=
  ⟨rfl,
   ((qr_valid_no_session stIdleEx dGoodHeroes rfl).2.1 rfl).1,
   ((qr_valid_no_session stIdleEx dGoodHeroes rfl).2.1 rfl).2.2.2.1⟩

/-- C9 counterexample: the concrete shutdown trace terminates (never
kills) the playback process and stops the event bus BEFORE stopping the
gate and before cleanup, refuting the claimed order (kill playback,
stop gate, cleanup, then stop bus). -/
theorem shutdown_order_refuted :
    stags (shutdown stShutEx).2 =
      [STag.termPB, STag.busStop, STag.gateStop, STag.cleanupDone] ∧
    [STag.termPB, STag.busStop, STag.gateStop, STag.cleanupDone] ≠
      [STag.killPB, STag.gateStop, STag.cleanupDone, STag.busStop] ∧
    countKills (shutdown stShutEx).2 = 0 :=
  ⟨rfl, by decide, rfl⟩

/-- C9 amended: from any state, shutdown terminates a live playback
process (graceful terminate, never kill), stops the event bus, then
stops the QR gate when it is scanning, and then runs actuator cleanup
exactly once; the bus stop precedes cleanup, so the final cleared event
is published to an already-stopped bus. -/
theorem shutdown_sequence (st : SysState) :
    stags (shutdown st).2 =
      (if st.playback_process = some true then [STag.termPB] else []) ++
      [STag.busStop] ++
      (if st.scanning then [STag.gateStop] else []) ++
      [STag.cleanupDone] ∧
    countCleared (shutdown st).2 = 1 ∧
    countKills (shutdown st).2 = 0 := by
  unfold shutdown scanner_stop cleanup set_light_state set_door_state
  by_cases hp : st.playback_process = some true <;>
    by_cases hs : st.scanning = true <;>
      simp [hp, hs, stags, stag_of, countCleared, countKills]

end HeroesBooth
